import Mathlib

/-!
Verification development for the saitrapp-backend risk-gated trading core.

This file gives a shallow embedding, in Lean 4, of the FXIFY risk components
of the repository:

* `src/electron/fxify/drawdown-monitor.js`       (`DrawdownMonitor`)
* `src/electron/fxify/fxify-rules-engine.js`     (`FXIFYRulesEngine`)
* `src/electron/fxify/pre-execution-validator.js`(`PreExecutionValidator`)
* `src/electron/brokers/fxify-mt5.js`            (`MT5FXIFYAdapter`)
* `src/electron/brokers/mt5.js`                  (socket close handler)

Modelling conventions:

* JavaScript numbers are modelled as rationals (`ℚ`).  The IEEE-754 special
  values `NaN`/`Infinity` are not modelled; theorems whose source paths could
  produce them carry positivity or presence hypotheses instead.
* Possibly-absent JS values (`undefined`/`null`) are modelled as `Option`;
  JS truthiness of a number is "present and nonzero", of a string
  "present and nonempty".
* A JS function that may throw is modelled with `Except String`; `.error`
  is a thrown exception carrying its message, `try`/`catch` is a `match`
  on that value.
* The ambient wall clock (`new Date()`) is threaded explicitly: the current
  UTC calendar date as a `String` (the `toISOString().split('T')[0]` key)
  and the UTC day of week as a `ℕ`.
* Collaborator calls made by the validator (active-profile lookup, drawdown
  status query, balance read) are fields of an environment record holding
  either the returned value or an injected exception, so that fail-open /
  fail-closed behaviour of each `catch` block can be stated.
* The economic calendar (`trading-calendar.js`) enters these components only
  through `isHighImpactEventActive(symbol)`; it is modelled as the lookup
  function `String → Bool`.
* `details` payloads of rule violations and the numeric interpolation inside
  violation message strings are elided (no claim depends on them); the
  structural parts of each message are kept.
-/

namespace Saitrapp

/-- A JS computation that either returns a value or throws an exception. -/
abbrev JSRes (α : Type) := Except String α

/-- JS truthiness of a possibly-absent number: present and nonzero. -/
def truthyQ (x : Option ℚ) : Bool :=
  match x with
  | some v => v != 0
  | none => false

/-- JS `x || d` for a possibly-absent number: `d` when `x` is absent or zero. -/
def jsOrQ (x : Option ℚ) (d : ℚ) : ℚ :=
  match x with
  | some v => if v = 0 then d else v
  | none => d

/-- JS `s || d` for a possibly-absent string: `d` when absent or empty. -/
def jsOrStr (s : Option String) (d : String) : String :=
  match s with
  | some v => if v = "" then d else v
  | none => d

/-- JS `a > b` where either side may be `undefined`: any comparison with
`undefined` is `false`. -/
def jsGtQ (a b : Option ℚ) : Bool :=
  match a, b with
  | some x, some y => x > y
  | _, _ => false

/-- `Map.prototype.set`: overwrite the entry at the key in place (keys are
unique, insertion order is kept), else append it. -/
def mapSet : List (String × ℚ) → String → ℚ → List (String × ℚ)
  | [], k, v => [(k, v)]
  | p :: rest, k, v => if p.1 == k then (k, v) :: rest else p :: mapSet rest k v

/-- `Map.prototype.get` followed by `|| 0` as in `getCurrentDailyDrawdown`. -/
def mapGetD : List (String × ℚ) → String → ℚ
  | [], _ => 0
  | p :: rest, k => if p.1 == k then p.2 else mapGetD rest k

/-- One entry of `drawdownHistory`
(`drawdown-monitor.js`, `_updateDrawdownHistory`). -/
structure DrawdownHistoryItem where
  day : String
  dailyDrawdown : ℚ
  totalDrawdown : ℚ
  balance : ℚ
  equity : ℚ
deriving Repr, DecidableEq

/-- The mutable state of `DrawdownMonitor` (`drawdown-monitor.js`).
`lastUpdateDay` holds the UTC date key of `this.lastUpdate`. -/
structure DrawdownMonitor where
  dailyDrawdowns : List (String × ℚ)
  maxDailyDrawdown : ℚ
  totalDrawdown : ℚ
  maxTotalDrawdown : ℚ
  initialBalance : ℚ
  startOfDayBalance : ℚ
  currentBalance : ℚ
  currentEquity : ℚ
  peakBalance : ℚ
  drawdownHistory : List DrawdownHistoryItem
  lastUpdateDay : String
deriving Repr, DecidableEq

namespace DrawdownMonitor

/-- The `DrawdownMonitor` constructor; `today` is the date of `new Date()`. -/
def new (today : String) : DrawdownMonitor :=
  { dailyDrawdowns := []
    maxDailyDrawdown := 3/100
    totalDrawdown := 0
    maxTotalDrawdown := 6/100
    initialBalance := 0
    startOfDayBalance := 0
    currentBalance := 0
    currentEquity := 0
    peakBalance := 0
    drawdownHistory := []
    lastUpdateDay := today }

/-- `registerDayStart()`: snapshots `startOfDayBalance = this.currentBalance`
and initializes today's entry of `dailyDrawdowns` to `0`. -/
def registerDayStart (m : DrawdownMonitor) (today : String) : DrawdownMonitor :=
  { m with
    startOfDayBalance := m.currentBalance
    dailyDrawdowns := mapSet m.dailyDrawdowns today 0 }

/-- `initialize(initialBalance, maxDaily, maxTotal)`; note that the source
does not touch `lastUpdate` here. -/
def initMonitor (m : DrawdownMonitor) (initialBalance maxDaily maxTotal : ℚ)
    (today : String) : DrawdownMonitor :=
  let m1 : DrawdownMonitor :=
    { m with
      initialBalance := initialBalance
      startOfDayBalance := initialBalance
      currentBalance := initialBalance
      currentEquity := initialBalance
      peakBalance := initialBalance
      maxDailyDrawdown := maxDaily
      maxTotalDrawdown := maxTotal
      dailyDrawdowns := []
      drawdownHistory := [] }
  m1.registerDayStart today

/-- `_calculateDrawdowns()`: recompute today's daily drawdown from
`startOfDayBalance` and the total drawdown from `peakBalance` (falling back
to `initialBalance`), both against `currentEquity`, clamped at `0`. -/
def calculateDrawdowns (m : DrawdownMonitor) (today : String) : DrawdownMonitor :=
  let dailyDrawdown : ℚ :=
    if m.startOfDayBalance > 0 then
      max 0 ((m.startOfDayBalance - m.currentEquity) / m.startOfDayBalance)
    else 0
  let m1 : DrawdownMonitor :=
    { m with dailyDrawdowns := mapSet m.dailyDrawdowns today dailyDrawdown }
  if m1.peakBalance > 0 then
    { m1 with totalDrawdown := max 0 ((m1.peakBalance - m1.currentEquity) / m1.peakBalance) }
  else if m1.initialBalance > 0 then
    { m1 with totalDrawdown := max 0 ((m1.initialBalance - m1.currentEquity) / m1.initialBalance) }
  else m1

/-- `getCurrentDailyDrawdown()`: today's entry of `dailyDrawdowns`, or `0`. -/
def getCurrentDailyDrawdown (m : DrawdownMonitor) (today : String) : ℚ :=
  mapGetD m.dailyDrawdowns today

/-- `_updateDrawdownHistory()`: push an entry, keep the last 1000. -/
def updateDrawdownHistory (m : DrawdownMonitor) (today : String) : DrawdownMonitor :=
  let h := m.drawdownHistory ++
    [{ day := today
       dailyDrawdown := m.getCurrentDailyDrawdown today
       totalDrawdown := m.totalDrawdown
       balance := m.currentBalance
       equity := m.currentEquity }]
  if h.length > 1000 then { m with drawdownHistory := h.drop (h.length - 1000) }
  else { m with drawdownHistory := h }

/-- `updateBalance(newBalance, equity = null)`.  Note the source assigns
`this.currentBalance = newBalance` *before* the day-rollover check, so a
rollover's `registerDayStart` snapshots the freshly supplied balance. -/
def updateBalance (m : DrawdownMonitor) (newBalance : ℚ) (equity : Option ℚ)
    (today : String) : DrawdownMonitor :=
  let m1 : DrawdownMonitor :=
    { m with
      currentBalance := newBalance
      currentEquity := match equity with | some e => e | none => newBalance }
  let m2 := if newBalance > m1.peakBalance then { m1 with peakBalance := newBalance } else m1
  let m3 := if today != m2.lastUpdateDay then m2.registerDayStart today else m2
  let m4 := m3.calculateDrawdowns today
  let m5 := m4.updateDrawdownHistory today
  { m5 with lastUpdateDay := today }

/-- `isDailyLimitExceeded()`: strict comparison. -/
def isDailyLimitExceeded (m : DrawdownMonitor) (today : String) : Bool :=
  m.getCurrentDailyDrawdown today > m.maxDailyDrawdown

/-- `isTotalLimitExceeded()`: strict comparison. -/
def isTotalLimitExceeded (m : DrawdownMonitor) : Bool :=
  m.totalDrawdown > m.maxTotalDrawdown

/-- `getWarningLevel()`: ratio `≥ 1` is critical, ratio `≥ 0.8` is warning. -/
def getWarningLevel (m : DrawdownMonitor) (today : String) : String :=
  let dailyDrawdownPercentage := m.getCurrentDailyDrawdown today / m.maxDailyDrawdown
  let totalDrawdownPercentage := m.totalDrawdown / m.maxTotalDrawdown
  if dailyDrawdownPercentage ≥ 1 ∨ totalDrawdownPercentage ≥ 1 then "critical"
  else if dailyDrawdownPercentage ≥ 8/10 ∨ totalDrawdownPercentage ≥ 8/10 then "warning"
  else "safe"

end DrawdownMonitor

/-- The record returned by `DrawdownMonitor.getStatus()`. -/
structure DrawdownStatus where
  dailyDrawdown : ℚ
  totalDrawdown : ℚ
  dailyLimitExceeded : Bool
  totalLimitExceeded : Bool
  warningLevel : String
  currentBalance : ℚ
  currentEquity : ℚ
  initialBalance : ℚ
  startOfDayBalance : ℚ
  peakBalance : ℚ
  maxDailyLimit : ℚ
  maxTotalLimit : ℚ
deriving Repr, DecidableEq

/-- `DrawdownMonitor.getStatus()`. -/
def DrawdownMonitor.getStatus (m : DrawdownMonitor) (today : String) : DrawdownStatus :=
  { dailyDrawdown := m.getCurrentDailyDrawdown today
    totalDrawdown := m.totalDrawdown
    dailyLimitExceeded := m.isDailyLimitExceeded today
    totalLimitExceeded := m.isTotalLimitExceeded
    warningLevel := m.getWarningLevel today
    currentBalance := m.currentBalance
    currentEquity := m.currentEquity
    initialBalance := m.initialBalance
    startOfDayBalance := m.startOfDayBalance
    peakBalance := m.peakBalance
    maxDailyLimit := m.maxDailyDrawdown
    maxTotalLimit := m.maxTotalDrawdown }

/-- An FXIFY risk profile (`fxify-mode-manager.js`, `createProfile`).
`tradeSizeLimit` is `null` by default. -/
structure FXIFYProfile where
  name : String
  accountType : String
  profitTarget : ℚ
  maxDailyDrawdown : ℚ
  maxTotalDrawdown : ℚ
  minTradingDays : ℕ
  tradeSizeLimit : Option ℚ
  allowNewsTrading : Bool
deriving Repr, DecidableEq

/-- An order request as passed through validation and execution.
`potentialLoss` is attached by `validateOrder` before the rules-engine pass. -/
structure Order where
  symbol : String
  direction : String
  volume : Option ℚ
  price : Option ℚ
  stopLoss : Option ℚ
  takeProfit : Option ℚ
  pipValue : Option ℚ
  pipSize : Option ℚ
  comment : Option String
  potentialLoss : Option ℚ
deriving Repr, DecidableEq

/-- A rule violation record `{rule, severity, message}` (details elided). -/
structure RuleViolation where
  rule : String
  severity : String
  message : Option String
deriving Repr, DecidableEq

/-- A validation result `{valid, rules}`. -/
structure ValidationResult where
  valid : Bool
  rules : List RuleViolation
deriving Repr, DecidableEq

/-- The raw result of one rule evaluator before aggregation. -/
structure RuleResult where
  valid : Bool
  severity : Option String
  message : Option String
deriving Repr, DecidableEq

/-- A registered rule evaluator, `evaluate(request, profile)`.  Evaluators are
arbitrary code (the engine is extensible), so they may throw. -/
abbrev Evaluator := Order → FXIFYProfile → JSRes RuleResult

/-- What the rules engine's own evaluators read: the drawdown monitor they
close over, the current date, and the optional trading calendar, the latter
modelled by its `isHighImpactEventActive(symbol)` lookup. -/
structure EngineView where
  monitor : DrawdownMonitor
  today : String
  calendar : Option (String → Bool)

/-- The `drawdown_limit` evaluator (`fxify-rules-engine.js`,
`_initializeRuleEvaluators`). -/
def drawdownLimitEval (view : EngineView) : Evaluator := fun request profile =>
  let s := view.monitor.getStatus view.today
  if s.dailyLimitExceeded then
    .ok { valid := false, severity := some "error"
          message := some "Daily drawdown limit has been exceeded" }
  else if s.totalLimitExceeded then
    .ok { valid := false, severity := some "error"
          message := some "Total drawdown limit has been exceeded" }
  else
    let afterPotential : JSRes RuleResult :=
      if s.warningLevel == "critical" then
        .ok { valid := true, severity := some "warning"
              message := some "Approaching drawdown limits" }
      else .ok { valid := true, severity := none, message := none }
    if truthyQ request.potentialLoss then
      let pl := match request.potentialLoss with | some v => v | none => 0
      let potentialDailyDrawdown := s.dailyDrawdown + pl / view.monitor.startOfDayBalance
      let potentialTotalDrawdown := s.totalDrawdown + pl / view.monitor.initialBalance
      if potentialDailyDrawdown > profile.maxDailyDrawdown then
        .ok { valid := false, severity := some "error"
              message := some "This trade could exceed daily drawdown limit" }
      else if potentialTotalDrawdown > profile.maxTotalDrawdown then
        .ok { valid := false, severity := some "error"
              message := some "This trade could exceed total drawdown limit" }
      else afterPotential
    else afterPotential

/-- The `trade_size_limit` evaluator: no-op unless both the profile limit and
the requested volume are truthy; fails on `volume > tradeSizeLimit`. -/
def tradeSizeLimitEval : Evaluator := fun request profile =>
  if ¬ truthyQ profile.tradeSizeLimit ∨ ¬ truthyQ request.volume then
    .ok { valid := true, severity := none, message := none }
  else if jsGtQ request.volume profile.tradeSizeLimit then
    .ok { valid := false, severity := some "error"
          message := some "Trade size exceeds limit" }
  else .ok { valid := true, severity := none, message := none }

/-- The `news_trading` evaluator: fails when news trading is disallowed, a
trading calendar is present, the symbol is truthy, and the calendar reports an
active high-impact event for the symbol. -/
def newsTradingEval (view : EngineView) : Evaluator := fun request profile =>
  if profile.allowNewsTrading then
    .ok { valid := true, severity := none, message := none }
  else
    match view.calendar with
    | some lookup =>
      if request.symbol != "" then
        if lookup request.symbol then
          .ok { valid := false, severity := some "error"
                message := some ("Trading during high-impact news events is not allowed for " ++ request.symbol) }
        else .ok { valid := true, severity := none, message := none }
      else .ok { valid := true, severity := none, message := none }
    | none => .ok { valid := true, severity := none, message := none }

/-- The `trading_days` evaluator: informational, always valid. -/
def tradingDaysEval : Evaluator := fun _ _ =>
  .ok { valid := true, severity := none, message := none }

/-- The evaluator map in registration order. -/
def defaultEvaluators (view : EngineView) : List (String × Evaluator) :=
  [ ("drawdown_limit", drawdownLimitEval view)
  , ("trade_size_limit", tradeSizeLimitEval)
  , ("news_trading", newsTradingEval view)
  , ("trading_days", tradingDaysEval) ]

/-- The evaluator loop of `evaluateTradeRequest`: run each evaluator in order,
collecting blocking violations and non-blocking warnings.  A throwing
evaluator aborts the loop (the exception propagates to the engine `catch`). -/
def runEvaluators : List (String × Evaluator) → Order → FXIFYProfile →
    JSRes (List RuleViolation × List RuleViolation)
  | [], _, _ => .ok ([], [])
  | (ruleName, ev) :: rest, request, profile => do
    let result ← ev request profile
    let (vs, ws) ← runEvaluators rest request profile
    if ¬ result.valid then
      .ok ({ rule := ruleName, severity := jsOrStr result.severity "error"
             message := result.message } :: vs, ws)
    else if result.severity == some "warning" then
      .ok (vs, { rule := ruleName, severity := "warning"
                 message := result.message } :: ws)
    else .ok (vs, ws)

/-- `FXIFYRulesEngine.evaluateTradeRequest(request, profile)`: uses the
argument profile or the engine's active profile; aggregates evaluator results;
its `catch` turns an evaluator exception into a fail-closed `system_error`. -/
def evaluateTradeRequest (evals : List (String × Evaluator)) (request : Order)
    (profileArg engineProfile : Option FXIFYProfile) : ValidationResult :=
  match profileArg.orElse (fun _ => engineProfile) with
  | none => { valid := true, rules := [] }
  | some activeProfile =>
    match runEvaluators evals request activeProfile with
    | .ok (ruleViolations, warnings) =>
      { valid := ruleViolations.isEmpty, rules := ruleViolations ++ warnings }
    | .error msg =>
      { valid := false
        rules := [{ rule := "system_error", severity := "error"
                    message := some ("Error evaluating trade rules: " ++ msg) }] }

/-- The result shape of `checkNewsEvents` (event lists elided). -/
structure NewsCheck where
  safeToTrade : Bool
  recommendedAction : String
deriving Repr, DecidableEq

/-- Environment of one `PreExecutionValidator` call: the mode-manager state
and the collaborator calls the validator makes.  Each collaborator read is a
`JSRes` value so that an unexpected exception at that call site can be
expressed (`.error`), as required to state fail-open/fail-closed behaviour.
`engine` is the rules engine's own view; `evaluators` its registered
evaluator map (normally `defaultEvaluators engine`, but extensible). -/
structure ValidatorEnv where
  isActive : Bool
  activeProfileRes : JSRes (Option FXIFYProfile)
  drawdownStatusRes : JSRes DrawdownStatus
  currentBalanceRes : JSRes ℚ
  engine : EngineView
  evaluators : List (String × Evaluator)
  dayOfWeek : ℕ

/-- `_getAccountSize()`: `rulesEngine.currentBalance || 10000`, with its own
`catch` returning the `10000` fallback; this helper never throws. -/
def getAccountSize (env : ValidatorEnv) : ℚ :=
  match env.currentBalanceRes with
  | .ok b => if b = 0 then 10000 else b
  | .error _ => 10000

/-- The `try` body of `checkDrawdownLimits(potentialLoss)`. -/
def cdlBody (env : ValidatorEnv) (potentialLoss : ℚ) : JSRes ValidationResult := do
  let profile ← env.activeProfileRes
  match profile with
  | none => .ok { valid := true, rules := [] }
  | some p =>
    let drawdownStatus ← env.drawdownStatusRes
    let accountSize := getAccountSize env
    let potentialDaily := drawdownStatus.dailyDrawdown + potentialLoss / accountSize
    let potentialTotal := drawdownStatus.totalDrawdown + potentialLoss / accountSize
    if potentialDaily > p.maxDailyDrawdown then
      .ok { valid := false
            rules := [{ rule := "drawdown_limit", severity := "error"
                        message := some "This trade could exceed daily drawdown limit" }] }
    else if potentialTotal > p.maxTotalDrawdown then
      .ok { valid := false
            rules := [{ rule := "drawdown_limit", severity := "error"
                        message := some "This trade could exceed total drawdown limit" }] }
    else if drawdownStatus.warningLevel == "critical" then
      .ok { valid := true
            rules := [{ rule := "drawdown_warning", severity := "warning"
                        message := some "You are approaching drawdown limits" }] }
    else .ok { valid := true, rules := [] }

/-- `PreExecutionValidator.checkDrawdownLimits(potentialLoss)`.  Its `catch`
block returns `{valid: true}` — it defaults to *allowing* the trade when an
internal step throws (fail-open). -/
def checkDrawdownLimits (env : ValidatorEnv) (potentialLoss : ℚ) : ValidationResult :=
  if ¬ env.isActive then { valid := true, rules := [] }
  else
    match cdlBody env potentialLoss with
    | .ok r => r
    | .error _ => { valid := true, rules := [] }

/-- `_isForexPair(symbol)`: strip separators, accept exactly six capitals. -/
def isForexPair (symbol : String) : Bool :=
  let cleanSymbol := (symbol.toList.filter
    (fun c => c ≠ '/' ∧ c ≠ '_' ∧ c ≠ '-'))
  cleanSymbol.length == 6 ∧ cleanSymbol.all (fun c => 'A' ≤ c ∧ c ≤ 'Z')

/-- The `try` body of `checkTradingHours(symbol)`. -/
def cthBody (env : ValidatorEnv) (symbol : String) : JSRes ValidationResult := do
  let profile ← env.activeProfileRes
  match profile with
  | none => .ok { valid := true, rules := [] }
  | some _ =>
    if env.dayOfWeek = 0 ∨ env.dayOfWeek = 6 then
      .ok { valid := false
            rules := [{ rule := "trading_hours", severity := "error"
                        message := some "Trading is not allowed during weekends" }] }
    else if symbol != "" ∧ isForexPair symbol then
      .ok { valid := true, rules := [] }
    else .ok { valid := true, rules := [] }

/-- `PreExecutionValidator.checkTradingHours(symbol)`; its `catch` also
defaults to allowing the trade (fail-open). -/
def checkTradingHours (env : ValidatorEnv) (symbol : String) : ValidationResult :=
  if ¬ env.isActive then { valid := true, rules := [] }
  else
    match cthBody env symbol with
    | .ok r => r
    | .error _ => { valid := true, rules := [] }

/-- The `try` body of `checkNewsEvents(symbol)`.  The calendar query is a
placeholder in the source ("For now, return safe to trade"), so every branch
reports `safeToTrade: true`. -/
def cneBody (env : ValidatorEnv) (symbol : String) : JSRes NewsCheck := do
  let profile ← env.activeProfileRes
  match profile with
  | none => .ok { safeToTrade := true, recommendedAction := "proceed" }
  | some p =>
    if p.allowNewsTrading ∨ symbol = "" then
      .ok { safeToTrade := true, recommendedAction := "proceed" }
    else
      match env.engine.calendar with
      | some _ => .ok { safeToTrade := true, recommendedAction := "proceed" }
      | none => .ok { safeToTrade := true, recommendedAction := "proceed" }

/-- `PreExecutionValidator.checkNewsEvents(symbol)`. -/
def checkNewsEvents (env : ValidatorEnv) (symbol : String) : NewsCheck :=
  if ¬ env.isActive ∨ env.engine.calendar.isNone then
    { safeToTrade := true, recommendedAction := "proceed" }
  else
    match cneBody env symbol with
    | .ok r => r
    | .error _ => { safeToTrade := true, recommendedAction := "proceed" }

/-- The potential-loss estimate of `validateOrder`: stop-loss distance in pips
times pip value when volume and stop loss are truthy, else 1% of the account
size.  (An absent `price` would give `NaN` in JS; it is read as `0` here and
no theorem relies on this value in that case.) -/
def computePotentialLoss (env : ValidatorEnv) (order : Order) : ℚ :=
  if truthyQ order.volume ∧ truthyQ order.stopLoss then
    let pipValue := jsOrQ order.pipValue 10
    let pipSize := jsOrQ order.pipSize (1/10000)
    let price := match order.price with | some v => v | none => 0
    let stopLoss := match order.stopLoss with | some v => v | none => 0
    let stopLossPips := |price - stopLoss| / pipSize
    (match order.volume with | some v => v | none => 0) * stopLossPips * pipValue
  else
    getAccountSize env * (1/100)

/-- `FXIFYModeManager.validateTradeAgainstRules(tradeRequest)`: approve when
inactive or no active profile, else delegate to the rules engine with the
active profile.  (`this.activeProfile` is a plain field read and cannot
throw; an injected `.error` is unreachable from `validateOrder`, which
already threw at its own `getActiveProfile()` call, and is treated as the
absent profile here.) -/
def validateTradeAgainstRules (env : ValidatorEnv) (tradeRequest : Order) : ValidationResult :=
  match env.activeProfileRes with
  | .ok (some p) =>
    if env.isActive then evaluateTradeRequest env.evaluators tradeRequest (some p) (some p)
    else { valid := true, rules := [] }
  | .ok none => { valid := true, rules := [] }
  | .error _ => { valid := true, rules := [] }

/-- The `try` body of `validateOrder(order)`: compute the potential loss,
short-circuit on the drawdown, trading-hours and news checks, then delegate
to the rules engine. -/
def voBody (env : ValidatorEnv) (order : Order) : JSRes ValidationResult := do
  let profile ← env.activeProfileRes
  match profile with
  | none => .ok { valid := true, rules := [] }
  | some _ =>
    let potentialLoss := computePotentialLoss env order
    let orderWithRisk := { order with potentialLoss := some potentialLoss }
    let drawdownCheck := checkDrawdownLimits env potentialLoss
    if ¬ drawdownCheck.valid then .ok drawdownCheck
    else
      let tradingHoursCheck := checkTradingHours env order.symbol
      if ¬ tradingHoursCheck.valid then .ok tradingHoursCheck
      else
        let newsEventsCheck := checkNewsEvents env order.symbol
        if ¬ newsEventsCheck.safeToTrade then
          .ok { valid := false
                rules := [{ rule := "news_trading", severity := "error"
                            message := some ("Trading during high-impact news events is not allowed for " ++ order.symbol) }] }
        else .ok (validateTradeAgainstRules env orderWithRisk)

/-- `PreExecutionValidator.validateOrder(order)`: approve when FXIFY mode is
inactive; its own `catch` is fail-closed, returning an `error`-severity
`validation_error` violation. -/
def validateOrder (env : ValidatorEnv) (order : Order) : ValidationResult :=
  if ¬ env.isActive then { valid := true, rules := [] }
  else
    match voBody env order with
    | .ok r => r
    | .error msg =>
      { valid := false
        rules := [{ rule := "validation_error", severity := "error"
                    message := some ("Order validation error: " ++ msg) }] }

/-- The value of a `placeMarketOrder`-family call: either the broker payload
(held opaquely in `raw`) or the rejection record built by the adapter. -/
structure OrderOutcome where
  success : Bool
  message : Option String
  violations : Option (List RuleViolation)
  raw : String
deriving Repr, DecidableEq

/-- The fields of `getAccountInfo()` used by the adapter. -/
structure AccountInfo where
  balance : ℚ
  equity : ℚ
deriving Repr, DecidableEq

/-- An open position as returned by `getPositions()`. -/
structure Position where
  id : ℕ
  symbol : String
  volume : ℚ
deriving Repr, DecidableEq

/-- The fields of a `closePosition` result used by the adapter. -/
structure CloseResult where
  success : Bool
deriving Repr, DecidableEq

/-- The behaviour of the wrapped plain broker adapter (`super.*` calls of
`MT5FXIFYAdapter`): each call either returns its value or throws. -/
structure BrokerEnv where
  superPlaceMarketOrder : Order → JSRes OrderOutcome
  superGetAccountInfo : JSRes AccountInfo
  superGetPositions : JSRes (List Position)
  superClosePosition : ℕ → JSRes CloseResult

/-- Observable side effects of one `placeMarketOrder` call on the risk-gated
adapter: the orders it validated, the `fxify:rule_violation` emissions, the
orders it delegated to the plain adapter, and the `(balance, equity)` pairs
pushed into the drawdown monitor. -/
structure PlaceTrace where
  validatedOrders : List Order
  emittedViolations : List (List RuleViolation)
  brokerOrders : List Order
  drawdownUpdates : List (ℚ × ℚ)
deriving Repr, DecidableEq

/-- `MT5FXIFYAdapter.validateAgainstFXIFYRules(order)`: approve when
inactive, else run the pre-execution validator (whose embedding is total, so
this wrapper's fail-closed `catch` is not exercised here). -/
def validateAgainstFXIFYRules (env : ValidatorEnv) (order : Order) : ValidationResult :=
  if ¬ env.isActive then { valid := true, rules := [] }
  else validateOrder env order

/-- `MT5FXIFYAdapter.applyFXIFYConstraints(order)`: copy the order, clamp
`volume` to the profile's `tradeSizeLimit` when exceeded, and prefix the
comment.  The unguarded `getActiveProfile()` call may throw. -/
def applyFXIFYConstraints (env : ValidatorEnv) (order : Order) : JSRes Order := do
  if ¬ env.isActive then .ok order
  else
    let profile ← env.activeProfileRes
    match profile with
    | none => .ok order
    | some activeProfile =>
      let adjustedOrder :=
        if truthyQ activeProfile.tradeSizeLimit ∧
            jsGtQ order.volume activeProfile.tradeSizeLimit then
          { order with volume := activeProfile.tradeSizeLimit }
        else order
      .ok { adjustedOrder with
            comment := some ("FXIFY: " ++ jsOrStr adjustedOrder.comment "SAITRAPP") }

/-- `MT5FXIFYAdapter.placeMarketOrder(orderParams)`: delegate unchanged when
FXIFY mode is inactive; else validate, and on violation emit the
`fxify:rule_violation` event and return `{success:false, violations}`; on
approval apply constraints, delegate, and on broker success refresh the
drawdown monitor (that refresh's own failure is swallowed).  The outer
`catch` rethrows, so broker exceptions surface as `.error`. -/
def placeMarketOrder (benv : BrokerEnv) (venv : ValidatorEnv) (orderParams : Order) :
    JSRes OrderOutcome × PlaceTrace :=
  if ¬ venv.isActive then
    (benv.superPlaceMarketOrder orderParams,
     { validatedOrders := [], emittedViolations := [], brokerOrders := [orderParams]
       drawdownUpdates := [] })
  else
    let validationResult := validateAgainstFXIFYRules venv orderParams
    if ¬ validationResult.valid then
      match validationResult.rules with
      | [] =>
        -- `validationResult.rules[0].message` on an empty array throws a
        -- TypeError, rethrown by the outer catch (shown unreachable below).
        (.error "TypeError: cannot read properties of undefined",
         { validatedOrders := [orderParams], emittedViolations := []
           brokerOrders := [], drawdownUpdates := [] })
      | v :: _ =>
        (.ok { success := false
               message := some ("FXIFY rule violation: " ++ v.message.getD "undefined")
               violations := some validationResult.rules, raw := "" },
         { validatedOrders := [orderParams]
           emittedViolations := [validationResult.rules]
           brokerOrders := [], drawdownUpdates := [] })
    else
      match applyFXIFYConstraints venv orderParams with
      | .error e =>
        (.error e,
         { validatedOrders := [orderParams], emittedViolations := []
           brokerOrders := [], drawdownUpdates := [] })
      | .ok adjustedOrder =>
        match benv.superPlaceMarketOrder adjustedOrder with
        | .error e =>
          (.error e,
           { validatedOrders := [orderParams], emittedViolations := []
             brokerOrders := [adjustedOrder], drawdownUpdates := [] })
        | .ok orderResult =>
          if orderResult.success then
            match benv.superGetAccountInfo with
            | .ok accountInfo =>
              (.ok orderResult,
               { validatedOrders := [orderParams], emittedViolations := []
                 brokerOrders := [adjustedOrder]
                 drawdownUpdates := [(accountInfo.balance, accountInfo.equity)] })
            | .error _ =>
              (.ok orderResult,
               { validatedOrders := [orderParams], emittedViolations := []
                 brokerOrders := [adjustedOrder], drawdownUpdates := [] })
          else
            (.ok orderResult,
             { validatedOrders := [orderParams], emittedViolations := []
               brokerOrders := [adjustedOrder], drawdownUpdates := [] })

/-- One entry of `closeAllPositions`' `details` array. -/
structure CloseDetail where
  positionId : ℕ
  success : Bool
  error : Option String
deriving Repr, DecidableEq

/-- The aggregate returned by `closeAllPositions` on its happy path. -/
structure CloseAllResult where
  success : Bool
  closed : ℕ
  total : ℕ
  reason : String
  details : List CloseDetail
deriving Repr, DecidableEq

/-- `closeAllPositions` either returns the aggregate or, when fetching the
position list itself throws, the outer catch's error record. -/
inductive CloseAllOutcome where
  | ok (r : CloseAllResult)
  | failed (reason : String) (error : String)
deriving Repr, DecidableEq

/-- The per-position close attempts of `closeAllPositions`: each position is
closed independently, an individual throw is converted into a failed entry. -/
def closeDetails (benv : BrokerEnv) (positions : List Position) : List CloseDetail :=
  positions.map (fun position =>
    match benv.superClosePosition position.id with
    | .ok result => { positionId := position.id, success := result.success, error := none }
    | .error e => { positionId := position.id, success := false, error := some e })

/-- `MT5FXIFYAdapter.closeAllPositions(reason)`.  (The post-close drawdown
refresh only mutates the monitor and is not part of the returned value.) -/
def closeAllPositions (benv : BrokerEnv) (reason : String) : CloseAllOutcome :=
  match benv.superGetPositions with
  | .error e => .failed ("Error closing positions: " ++ e) e
  | .ok positions =>
    let results := closeDetails benv positions
    let successful := (results.filter (fun r => r.success)).length
    .ok { success := successful == positions.length
          closed := successful
          total := positions.length
          reason := reason
          details := results }

/-- The `mt5.js` connection state read by the socket `close` handler. -/
structure MT5Connection where
  connected : Bool
  callbacks : List ℕ
  reconnectAttempts : ℕ
  maxReconnectAttempts : ℕ
deriving Repr, DecidableEq

/-- What one run of the socket `close` handler produces. -/
structure CloseHandlerOutcome where
  state : MT5Connection
  rejections : List (ℕ × String)
  disconnectedEmitted : Bool
  reconnectScheduled : Bool
deriving Repr, DecidableEq

/-- The socket `close` handler of `MT5BrokerAdapter.connect`: reject every
pending callback with a connection-closed error, clear the map, emit
`disconnected` and schedule a reconnect when the close interrupted a live
connection with attempts remaining. -/
def handleSocketClose (c : MT5Connection) : CloseHandlerOutcome :=
  let wasConnected := c.connected
  let rejections := c.callbacks.map (fun id => (id, "Connection closed"))
  let c1 : MT5Connection := { c with connected := false, callbacks := [] }
  if wasConnected then
    if c1.reconnectAttempts < c1.maxReconnectAttempts then
      { state := { c1 with reconnectAttempts := c1.reconnectAttempts + 1 }
        rejections := rejections, disconnectedEmitted := true, reconnectScheduled := true }
    else
      { state := c1, rejections := rejections
        disconnectedEmitted := true, reconnectScheduled := false }
  else
    { state := c1, rejections := rejections
      disconnectedEmitted := false, reconnectScheduled := false }

/-- A fail-closed validation result: invalid, with at least one
`error`-severity violation. -/
def failClosed (r : ValidationResult) : Prop :=
  r.valid = false ∧ ∃ v ∈ r.rules, v.severity = "error"

instance (r : ValidationResult) : Decidable (failClosed r) := by
  unfold failClosed; infer_instance

/-! ### Concrete fixtures used by witnesses and counterexamples -/

/-- A sample UTC date key. -/
def d1 : String := "2024-01-05"

/-- The following UTC date key. -/
def d2 : String := "2024-01-06"

/-- A monitor freshly initialized at balance 10000 with the default limits. -/
def monitorStd : DrawdownMonitor :=
  (DrawdownMonitor.new d1).initMonitor 10000 (3/100) (6/100) d1

/-- A standard evaluation profile disallowing news trading, without a trade
size limit. -/
def profileStd : FXIFYProfile :=
  { name := "FXIFY Evaluation", accountType := "Evaluation", profitTarget := 1/10
    maxDailyDrawdown := 3/100, maxTotalDrawdown := 6/100, minTradingDays := 5
    tradeSizeLimit := none, allowNewsTrading := false }

/-- `profileStd` with a 1.0-lot trade size limit. -/
def profileSized : FXIFYProfile := { profileStd with tradeSizeLimit := some 1 }

/-- A calendar lookup reporting an active high-impact event for every symbol. -/
def calAll : String → Bool := fun _ => true

/-- An engine view over `monitorStd` with no trading calendar. -/
def viewBenign : EngineView := { monitor := monitorStd, today := d1, calendar := none }

/-- An engine view over `monitorStd` whose calendar reports an active
high-impact event for every symbol. -/
def viewNews : EngineView := { monitor := monitorStd, today := d1, calendar := some calAll }

/-- A plain market buy order without a stop loss. -/
def orderA : Order :=
  { symbol := "EURUSD", direction := "BUY", volume := some 1, price := some (11/10)
    stopLoss := none, takeProfit := none, pipValue := none, pipSize := none
    comment := none, potentialLoss := none }

/-- A validator environment with FXIFY mode inactive. -/
def venvOff : ValidatorEnv :=
  { isActive := false, activeProfileRes := .ok none
    drawdownStatusRes := .ok (monitorStd.getStatus d1), currentBalanceRes := .ok 10000
    engine := viewBenign, evaluators := defaultEvaluators viewBenign, dayOfWeek := 3 }

/-- An active weekday environment in which the drawdown-status query throws. -/
def venvThrowingStatus : ValidatorEnv :=
  { isActive := true, activeProfileRes := .ok (some profileStd)
    drawdownStatusRes := .error "boom", currentBalanceRes := .ok 10000
    engine := viewBenign, evaluators := defaultEvaluators viewBenign, dayOfWeek := 3 }

/-- An active healthy environment on a Saturday (`getUTCDay() = 6`), with the
calendar reporting an active high-impact event. -/
def venvNewsWeekend : ValidatorEnv :=
  { isActive := true, activeProfileRes := .ok (some profileStd)
    drawdownStatusRes := .ok (monitorStd.getStatus d1), currentBalanceRes := .ok 10000
    engine := viewNews, evaluators := defaultEvaluators viewNews, dayOfWeek := 6 }

/-- `venvNewsWeekend` on a weekday. -/
def venvNewsWeekday : ValidatorEnv := { venvNewsWeekend with dayOfWeek := 3 }

/-- An active healthy weekday environment without a calendar, under the
sized profile. -/
def venvSized : ValidatorEnv :=
  { isActive := true, activeProfileRes := .ok (some profileSized)
    drawdownStatusRes := .ok (monitorStd.getStatus d1), currentBalanceRes := .ok 10000
    engine := viewBenign, evaluators := defaultEvaluators viewBenign, dayOfWeek := 3 }

/-- An active weekday environment in which the active-profile lookup itself
throws. -/
def venvProfileThrows : ValidatorEnv :=
  { isActive := true, activeProfileRes := .error "boom"
    drawdownStatusRes := .ok (monitorStd.getStatus d1), currentBalanceRes := .ok 10000
    engine := viewBenign, evaluators := defaultEvaluators viewBenign, dayOfWeek := 3 }

/-- An evaluator registry holding a single evaluator that throws. -/
def evalsBoom : List (String × Evaluator) := [("boom_rule", fun _ _ => .error "boom")]

/-- A broker that echoes the order's symbol back in the opaque payload. -/
def benvEcho : BrokerEnv :=
  { superPlaceMarketOrder := fun o =>
      .ok { success := true, message := none, violations := none, raw := o.symbol }
    superGetAccountInfo := .ok { balance := 10000, equity := 10000 }
    superGetPositions := .ok []
    superClosePosition := fun _ => .ok { success := true } }

/-- A broker with three open positions whose second close attempt throws. -/
def benvClose3 : BrokerEnv :=
  { superPlaceMarketOrder := fun _ => .error "unused"
    superGetAccountInfo := .error "unused"
    superGetPositions := .ok
      [ { id := 1, symbol := "EURUSD", volume := 1 }
      , { id := 2, symbol := "GBPUSD", volume := 1 }
      , { id := 3, symbol := "USDJPY", volume := 1 } ]
    superClosePosition := fun id => if id == 2 then .error "close failed" else .ok { success := true } }

/-! ### Helper lemmas -/

theorem mapSet_get (m : List (String × ℚ)) (k : String) (v : ℚ) :
    mapGetD (mapSet m k v) k = v := by
  induction m with
  | nil => simp [mapSet, mapGetD]
  | cons hd tl ih =>
    by_cases h : hd.1 == k
    · simp [mapSet, mapGetD, h]
    · simp [mapSet, mapGetD, h, ih]

theorem calculateDrawdowns_startOfDayBalance (m : DrawdownMonitor) (today : String) :
    (m.calculateDrawdowns today).startOfDayBalance = m.startOfDayBalance := by
  unfold DrawdownMonitor.calculateDrawdowns
  dsimp only
  repeat' split
  all_goals rfl

theorem calculateDrawdowns_peakBalance (m : DrawdownMonitor) (today : String) :
    (m.calculateDrawdowns today).peakBalance = m.peakBalance := by
  unfold DrawdownMonitor.calculateDrawdowns
  dsimp only
  repeat' split
  all_goals rfl

theorem calculateDrawdowns_currentEquity (m : DrawdownMonitor) (today : String) :
    (m.calculateDrawdowns today).currentEquity = m.currentEquity := by
  unfold DrawdownMonitor.calculateDrawdowns
  dsimp only
  repeat' split
  all_goals rfl

theorem calculateDrawdowns_dailyDrawdowns (m : DrawdownMonitor) (today : String) :
    (m.calculateDrawdowns today).dailyDrawdowns =
      mapSet m.dailyDrawdowns today
        (if m.startOfDayBalance > 0 then
          max 0 ((m.startOfDayBalance - m.currentEquity) / m.startOfDayBalance)
        else 0) := by
  unfold DrawdownMonitor.calculateDrawdowns
  dsimp only
  repeat' split
  all_goals rfl

theorem calculateDrawdowns_totalDrawdown (m : DrawdownMonitor) (today : String)
    (h : 0 < m.peakBalance) :
    (m.calculateDrawdowns today).totalDrawdown =
      max 0 ((m.peakBalance - m.currentEquity) / m.peakBalance) := by
  unfold DrawdownMonitor.calculateDrawdowns
  simp [h]

theorem updateDrawdownHistory_startOfDayBalance (m : DrawdownMonitor) (today : String) :
    (m.updateDrawdownHistory today).startOfDayBalance = m.startOfDayBalance := by
  unfold DrawdownMonitor.updateDrawdownHistory
  dsimp only
  repeat' split
  all_goals rfl

theorem updateDrawdownHistory_peakBalance (m : DrawdownMonitor) (today : String) :
    (m.updateDrawdownHistory today).peakBalance = m.peakBalance := by
  unfold DrawdownMonitor.updateDrawdownHistory
  dsimp only
  repeat' split
  all_goals rfl

theorem updateDrawdownHistory_currentEquity (m : DrawdownMonitor) (today : String) :
    (m.updateDrawdownHistory today).currentEquity = m.currentEquity := by
  unfold DrawdownMonitor.updateDrawdownHistory
  dsimp only
  repeat' split
  all_goals rfl

theorem updateDrawdownHistory_dailyDrawdowns (m : DrawdownMonitor) (today : String) :
    (m.updateDrawdownHistory today).dailyDrawdowns = m.dailyDrawdowns := by
  unfold DrawdownMonitor.updateDrawdownHistory
  dsimp only
  repeat' split
  all_goals rfl

theorem updateDrawdownHistory_totalDrawdown (m : DrawdownMonitor) (today : String) :
    (m.updateDrawdownHistory today).totalDrawdown = m.totalDrawdown := by
  unfold DrawdownMonitor.updateDrawdownHistory
  dsimp only
  repeat' split
  all_goals rfl

/-! ### C2 -/

/-- C2 counterexample: starting from a monitor initialized at balance 10000
on day `d1`, calling `updateBalance(9000, 9000)` on the next day `d2` sets the
new day's `startOfDayBalance` to the freshly supplied 9000 — not to the
pre-call `currentBalance` of 10000 as the claim states — because
`updateBalance` assigns `currentBalance = newBalance` before the rollover
check and `registerDayStart` reads the already-updated field. -/
theorem updateBalance_rollover_counterexample :
    monitorStd.currentBalance = 10000 ∧
    monitorStd.lastUpdateDay = d1 ∧
    d2 ≠ d1 ∧
    (monitorStd.updateBalance 9000 (some 9000) d2).startOfDayBalance = 9000 ∧
    (monitorStd.updateBalance 9000 (some 9000) d2).startOfDayBalance ≠ 10000 := by
  decide

/-- C2 (amended): whenever the UTC calendar date has advanced since the last
update, `updateBalance(newBalance, equity)` sets the new day's
`startOfDayBalance` to the newly supplied `newBalance` (the post-assignment
`currentBalance`), not to the balance held before the call. -/
theorem updateBalance_rollover_uses_new_balance (m : DrawdownMonitor) (newBalance : ℚ)
    (equity : Option ℚ) (today : String) (h : today ≠ m.lastUpdateDay) :
    (m.updateBalance newBalance equity today).startOfDayBalance = newBalance := by
  unfold DrawdownMonitor.updateBalance
  have hbne : (today != m.lastUpdateDay) = true := by simp [bne_iff_ne, h]
  by_cases hp : newBalance > m.peakBalance <;>
    simp [hp, hbne, DrawdownMonitor.registerDayStart,
      calculateDrawdowns_startOfDayBalance, updateDrawdownHistory_startOfDayBalance]

/-- C2 witness: the amended statement evaluated on the concrete
counterexample scenario. -/
theorem updateBalance_rollover_uses_new_balance_witness :
    d2 ≠ monitorStd.lastUpdateDay ∧
    (monitorStd.updateBalance 9000 (some 9000) d2).startOfDayBalance = 9000 :=
  ⟨by decide, updateBalance_rollover_uses_new_balance monitorStd 9000 (some 9000) d2 (by decide)⟩

/-! ### C5 -/

/-- C5: after `updateBalance(balance, equity)` with positive (post-call)
`startOfDayBalance` and `peakBalance`, the stored daily drawdown is
`max(0, (startOfDayBalance − equity)/startOfDayBalance)` and the stored total
drawdown is `max(0, (peakBalance − equity)/peakBalance)`, both computed from
the supplied equity rather than the balance. -/
theorem updateBalance_shape (m : DrawdownMonitor) (balance equity : ℚ) (today : String) :
    ∃ m3 : DrawdownMonitor,
      m.updateBalance balance (some equity) today =
        { (m3.calculateDrawdowns today).updateDrawdownHistory today with
          lastUpdateDay := today } ∧
      m3.currentEquity = equity := by
  unfold DrawdownMonitor.updateBalance
  dsimp only
  refine ⟨_, rfl, ?_⟩
  repeat' split
  all_goals simp [DrawdownMonitor.registerDayStart]

theorem updateBalance_drawdown_formulas (m : DrawdownMonitor) (balance equity : ℚ)
    (today : String)
    (hsod : 0 < (m.updateBalance balance (some equity) today).startOfDayBalance)
    (hpeak : 0 < (m.updateBalance balance (some equity) today).peakBalance) :
    (m.updateBalance balance (some equity) today).getCurrentDailyDrawdown today =
      max 0 (((m.updateBalance balance (some equity) today).startOfDayBalance - equity) /
        (m.updateBalance balance (some equity) today).startOfDayBalance) ∧
    (m.updateBalance balance (some equity) today).totalDrawdown =
      max 0 (((m.updateBalance balance (some equity) today).peakBalance - equity) /
        (m.updateBalance balance (some equity) today).peakBalance) := by
  obtain ⟨m3, hshape, heq⟩ := updateBalance_shape m balance equity today
  rw [hshape] at hsod hpeak ⊢
  simp only [DrawdownMonitor.getCurrentDailyDrawdown] at *
  simp only [updateDrawdownHistory_dailyDrawdowns, updateDrawdownHistory_totalDrawdown,
    updateDrawdownHistory_startOfDayBalance, updateDrawdownHistory_peakBalance,
    calculateDrawdowns_dailyDrawdowns, calculateDrawdowns_startOfDayBalance,
    calculateDrawdowns_peakBalance] at *
  rw [mapSet_get]
  constructor
  · rw [if_pos hsod, heq]
  · rw [calculateDrawdowns_totalDrawdown m3 today hpeak, heq]

/-- C5 witness: the concrete scenario `initialize(10000, 0.03, 0.06)` then
`updateBalance(10000, 9600)` — daily drawdown `0.04` and
`isDailyLimitExceeded()` true — together with an instantiation of the general
formula theorem. -/
theorem updateBalance_drawdown_formulas_witness :
    ((monitorStd.updateBalance 10000 (some 9600) d1).getCurrentDailyDrawdown d1 =
       max 0 (((monitorStd.updateBalance 10000 (some 9600) d1).startOfDayBalance - 9600) /
         (monitorStd.updateBalance 10000 (some 9600) d1).startOfDayBalance) ∧
     (monitorStd.updateBalance 10000 (some 9600) d1).totalDrawdown =
       max 0 (((monitorStd.updateBalance 10000 (some 9600) d1).peakBalance - 9600) /
         (monitorStd.updateBalance 10000 (some 9600) d1).peakBalance)) ∧
    (monitorStd.updateBalance 10000 (some 9600) d1).getCurrentDailyDrawdown d1 = 4/100 ∧
    (monitorStd.updateBalance 10000 (some 9600) d1).isDailyLimitExceeded d1 = true :=
  ⟨updateBalance_drawdown_formulas monitorStd 10000 9600 d1
     (by with_unfolding_all decide) (by with_unfolding_all decide),
   by with_unfolding_all decide, by with_unfolding_all decide⟩

/-! ### C7 -/

/-- C7: the breach predicates use strict `>` while the warning classification
uses `≥ 1` on the drawdown-to-limit ratio, so at a drawdown exactly equal to
its (positive) limit the exceeded predicate is `false` while
`getWarningLevel()` is already `"critical"`. -/
theorem exact_limit_not_exceeded_but_critical (m : DrawdownMonitor) (today : String) :
    (m.getCurrentDailyDrawdown today = m.maxDailyDrawdown → 0 < m.maxDailyDrawdown →
      m.isDailyLimitExceeded today = false ∧ m.getWarningLevel today = "critical") ∧
    (m.totalDrawdown = m.maxTotalDrawdown → 0 < m.maxTotalDrawdown →
      m.isTotalLimitExceeded = false ∧ m.getWarningLevel today = "critical") := by
  constructor
  · intro heq hpos
    constructor
    · unfold DrawdownMonitor.isDailyLimitExceeded
      simp [heq]
    · unfold DrawdownMonitor.getWarningLevel
      rw [heq, div_self (ne_of_gt hpos)]
      simp
  · intro heq hpos
    constructor
    · unfold DrawdownMonitor.isTotalLimitExceeded
      simp [heq]
    · unfold DrawdownMonitor.getWarningLevel
      rw [heq, div_self (ne_of_gt hpos)]
      simp

/-- C7 witness: a monitor sitting exactly at both limits (daily `0.03` of
`0.03`, total `0.06` of `0.06`): neither exceeded predicate holds, yet the
warning level is `"critical"`. -/
theorem exact_limit_not_exceeded_but_critical_witness :
    ((DrawdownMonitor.new d1 : DrawdownMonitor).isDailyLimitExceeded d1 = false ∧
      ({ DrawdownMonitor.new d1 with
          dailyDrawdowns := [(d1, 3/100)], totalDrawdown := 6/100 } : DrawdownMonitor).isDailyLimitExceeded d1 = false ∧
      ({ DrawdownMonitor.new d1 with
          dailyDrawdowns := [(d1, 3/100)], totalDrawdown := 6/100 } : DrawdownMonitor).getWarningLevel d1 = "critical") ∧
    (({ DrawdownMonitor.new d1 with
          dailyDrawdowns := [(d1, 3/100)], totalDrawdown := 6/100 } : DrawdownMonitor).isTotalLimitExceeded = false ∧
      ({ DrawdownMonitor.new d1 with
          dailyDrawdowns := [(d1, 3/100)], totalDrawdown := 6/100 } : DrawdownMonitor).getWarningLevel d1 = "critical") :=
  ⟨⟨by with_unfolding_all decide,
    (exact_limit_not_exceeded_but_critical
      { DrawdownMonitor.new d1 with dailyDrawdowns := [(d1, 3/100)], totalDrawdown := 6/100 } d1).1
      (by with_unfolding_all decide) (by with_unfolding_all decide)⟩,
   (exact_limit_not_exceeded_but_critical
      { DrawdownMonitor.new d1 with dailyDrawdowns := [(d1, 3/100)], totalDrawdown := 6/100 } d1).2
      (by with_unfolding_all decide) (by with_unfolding_all decide)⟩

/-! ### C9 -/

/-- C9: when the socket `close` event fires, every request still present in
the pending-request map is rejected with the connection-closed error and the
map is emptied, so no pending resolver survives the close. -/
theorem socket_close_rejects_all_pending (c : MT5Connection) :
    (handleSocketClose c).state.callbacks = [] ∧
    (handleSocketClose c).rejections =
      c.callbacks.map (fun id => (id, "Connection closed")) := by
  unfold handleSocketClose
  dsimp only
  repeat' split
  all_goals exact ⟨rfl, rfl⟩

/-! ### C6 -/

/-- C6: `closeAllPositions` closes every open position independently and
tolerates individual failures: with `n` open positions of which `k` close
successfully it returns an aggregate whose `details` has one entry per
position (in order), `closed = k`, `total = n`, and `success` true exactly
when `k = n`. -/
theorem closeAllPositions_aggregate (benv : BrokerEnv) (positions : List Position)
    (reason : String) (h : benv.superGetPositions = .ok positions) :
    ∃ r : CloseAllResult,
      closeAllPositions benv reason = .ok r ∧
      r.details = closeDetails benv positions ∧
      r.details.length = positions.length ∧
      r.details.map (fun e => e.positionId) = positions.map (fun p => p.id) ∧
      r.closed = ((closeDetails benv positions).filter (fun e => e.success)).length ∧
      r.total = positions.length ∧
      (r.success = true ↔ r.closed = r.total) := by
  unfold closeAllPositions
  rw [h]
  refine ⟨_, rfl, rfl, ?_, ?_, rfl, rfl, ?_⟩
  · unfold closeDetails
    rw [List.length_map]
  · unfold closeDetails
    rw [List.map_map]
    congr 1
    funext p
    show (match benv.superClosePosition p.id with
      | Except.ok result => ({ positionId := p.id, success := result.success, error := none } : CloseDetail)
      | Except.error e => { positionId := p.id, success := false, error := some e }).positionId = p.id
    cases benv.superClosePosition p.id <;> rfl
  · dsimp only
    rw [beq_iff_eq]

/-- C6 witness: three open positions whose second close attempt throws give
`{closed: 2, total: 3, success: false}` with all three attempts in
`details`. -/
theorem closeAllPositions_aggregate_witness :
    (∃ r : CloseAllResult,
      closeAllPositions benvClose3 "FXIFY rule enforcement" = .ok r ∧
      r.details = closeDetails benvClose3
        [ { id := 1, symbol := "EURUSD", volume := 1 }
        , { id := 2, symbol := "GBPUSD", volume := 1 }
        , { id := 3, symbol := "USDJPY", volume := 1 } ] ∧
      r.details.length = 3 ∧
      r.details.map (fun e => e.positionId) = [1, 2, 3] ∧
      r.closed = ((closeDetails benvClose3
        [ { id := 1, symbol := "EURUSD", volume := 1 }
        , { id := 2, symbol := "GBPUSD", volume := 1 }
        , { id := 3, symbol := "USDJPY", volume := 1 } ]).filter (fun e => e.success)).length ∧
      r.total = 3 ∧
      (r.success = true ↔ r.closed = r.total)) ∧
    closeAllPositions benvClose3 "FXIFY rule enforcement" = .ok
      { success := false, closed := 2, total := 3, reason := "FXIFY rule enforcement"
        details :=
          [ { positionId := 1, success := true, error := none }
          , { positionId := 2, success := false, error := some "close failed" }
          , { positionId := 3, success := true, error := none } ] } :=
  ⟨closeAllPositions_aggregate benvClose3
      [ { id := 1, symbol := "EURUSD", volume := 1 }
      , { id := 2, symbol := "GBPUSD", volume := 1 }
      , { id := 3, symbol := "USDJPY", volume := 1 } ]
      "FXIFY rule enforcement" rfl,
   by decide⟩

/-! ### C8 -/

/-- C8: with FXIFY mode inactive, `placeMarketOrder` on the risk-gated
adapter returns exactly the plain broker adapter's result for the unchanged
order parameters, performing no validation, emitting no violation event and
pushing nothing into the drawdown monitor. -/
theorem placeMarketOrder_inactive_delegates (benv : BrokerEnv) (venv : ValidatorEnv)
    (orderParams : Order) (h : venv.isActive = false) :
    (placeMarketOrder benv venv orderParams).1 = benv.superPlaceMarketOrder orderParams ∧
    (placeMarketOrder benv venv orderParams).2 =
      { validatedOrders := [], emittedViolations := []
        brokerOrders := [orderParams], drawdownUpdates := [] } := by
  unfold placeMarketOrder
  rw [h]
  exact ⟨rfl, rfl⟩

/-- C8 witness: the inactive-mode delegation evaluated on a concrete broker
environment and order. -/
theorem placeMarketOrder_inactive_delegates_witness :
    venvOff.isActive = false ∧
    (placeMarketOrder benvEcho venvOff orderA).1 = benvEcho.superPlaceMarketOrder orderA ∧
    (placeMarketOrder benvEcho venvOff orderA).2 =
      { validatedOrders := [], emittedViolations := []
        brokerOrders := [orderA], drawdownUpdates := [] } :=
  ⟨rfl, (placeMarketOrder_inactive_delegates benvEcho venvOff orderA rfl).1,
    (placeMarketOrder_inactive_delegates benvEcho venvOff orderA rfl).2⟩

/-! ### Evaluator-loop lemmas -/

theorem runEvaluators_ok_total (evals : List (String × Evaluator)) (request : Order)
    (profile : FXIFYProfile) (h : ∀ x ∈ evals, ∃ r, x.2 request profile = .ok r) :
    ∃ vsws, runEvaluators evals request profile = .ok vsws := by
  induction evals with
  | nil => exact ⟨([], []), rfl⟩
  | cons hd tl ih =>
    obtain ⟨n0, e0⟩ := hd
    obtain ⟨r, hr⟩ := h _ (List.mem_cons_self _ _)
    have hr' : e0 request profile = .ok r := hr
    obtain ⟨⟨vs, ws⟩, hrest⟩ := ih (fun x hx => h x (List.mem_cons_of_mem _ hx))
    simp only [runEvaluators, hr', hrest, Bind.bind, Except.bind]
    repeat' split
    all_goals exact ⟨_, rfl⟩

theorem runEvaluators_invalid_mem (evals : List (String × Evaluator)) (request : Order)
    (profile : FXIFYProfile) (vs ws : List RuleViolation)
    (h : runEvaluators evals request profile = .ok (vs, ws))
    (ruleName : String) (ev : Evaluator) (hmem : (ruleName, ev) ∈ evals)
    (r : RuleResult) (hev : ev request profile = .ok r) (hr : r.valid = false) :
    ∃ v ∈ vs, v.rule = ruleName ∧ v.severity = jsOrStr r.severity "error" ∧
      v.message = r.message := by
  induction evals generalizing vs ws with
  | nil => cases hmem
  | cons hd tl ih =>
    obtain ⟨n0, e0⟩ := hd
    cases hmem with
    | head =>
      simp only [runEvaluators, hev, Bind.bind, Except.bind] at h
      cases hrest : runEvaluators tl request profile with
      | error e => rw [hrest] at h; cases h
      | ok vsws =>
        obtain ⟨vs', ws'⟩ := vsws
        rw [hrest] at h
        simp only [hr, Bool.false_eq_true, not_false_eq_true, if_true, ite_true] at h
        injection h with h'
        injection h' with hvs hws
        exact ⟨_, by rw [← hvs]; exact List.mem_cons_self _ _, rfl, rfl, rfl⟩
    | tail b hmem' =>
      cases hres : e0 request profile with
      | error e =>
        simp only [runEvaluators, hres, Bind.bind, Except.bind] at h
        cases h
      | ok r1 =>
        simp only [runEvaluators, hres, Bind.bind, Except.bind] at h
        cases hrest : runEvaluators tl request profile with
        | error e => rw [hrest] at h; cases h
        | ok vsws =>
          obtain ⟨vs', ws'⟩ := vsws
          rw [hrest] at h
          obtain ⟨v, hv, hprops⟩ := ih vs' ws' hrest hmem'
          by_cases h1 : r1.valid = false
          · simp only [h1, Bool.false_eq_true, not_false_eq_true, if_true, ite_true] at h
            injection h with h'
            injection h' with hvs hws
            exact ⟨v, by rw [← hvs]; exact List.mem_cons_of_mem _ hv, hprops⟩
          · have h1' : r1.valid = true := by
              cases hval : r1.valid
              · exact absurd hval h1
              · rfl
            simp only [h1', not_true_eq_false, if_false, ite_false] at h
            by_cases h2 : (r1.severity == some "warning") = true
            · simp only [h2, if_true, ite_true] at h
              injection h with h'
              injection h' with hvs hws
              exact ⟨v, by rw [← hvs]; exact hv, hprops⟩
            · simp only [h2, if_false, ite_false] at h
              injection h with h'
              injection h' with hvs hws
              exact ⟨v, by rw [← hvs]; exact hv, hprops⟩

theorem drawdownLimitEval_ok (view : EngineView) (request : Order) (profile : FXIFYProfile) :
    ∃ r, drawdownLimitEval view request profile = .ok r := by
  unfold drawdownLimitEval
  dsimp only
  repeat' split
  all_goals exact ⟨_, rfl⟩

theorem tradeSizeLimitEval_ok (request : Order) (profile : FXIFYProfile) :
    ∃ r, tradeSizeLimitEval request profile = .ok r := by
  unfold tradeSizeLimitEval
  repeat' split
  all_goals exact ⟨_, rfl⟩

theorem newsTradingEval_ok (view : EngineView) (request : Order) (profile : FXIFYProfile) :
    ∃ r, newsTradingEval view request profile = .ok r := by
  unfold newsTradingEval
  repeat' split
  all_goals exact ⟨_, rfl⟩

theorem defaultEvaluators_total (view : EngineView) (request : Order) (profile : FXIFYProfile) :
    ∀ x ∈ defaultEvaluators view, ∃ r, x.2 request profile = .ok r := by
  intro x hx
  simp only [defaultEvaluators, List.mem_cons, List.not_mem_nil, or_false] at hx
  rcases hx with rfl | rfl | rfl | rfl
  · exact drawdownLimitEval_ok view request profile
  · exact tradeSizeLimitEval_ok request profile
  · exact newsTradingEval_ok view request profile
  · exact ⟨_, rfl⟩

/-! ### Invalid results always carry a violation -/

theorem cdlBody_invalid_nonempty (env : ValidatorEnv) (potentialLoss : ℚ)
    (r : ValidationResult) (h : cdlBody env potentialLoss = .ok r)
    (hv : r.valid = false) : r.rules ≠ [] := by
  simp only [cdlBody, Bind.bind, Except.bind] at h
  cases hpr : env.activeProfileRes with
  | error e => rw [hpr] at h; cases h
  | ok profile =>
    rw [hpr] at h
    cases profile with
    | none =>
      injection h with h'
      rw [← h'] at hv
      cases hv
    | some p =>
      cases hds : env.drawdownStatusRes with
      | error e => rw [hds] at h; cases h
      | ok dd =>
        rw [hds] at h
        dsimp only at h
        repeat' split at h
        all_goals injection h with h'
        all_goals rw [← h'] at hv ⊢
        all_goals simp at hv ⊢

theorem checkDrawdownLimits_invalid_nonempty (env : ValidatorEnv) (potentialLoss : ℚ) :
    (checkDrawdownLimits env potentialLoss).valid = false →
    (checkDrawdownLimits env potentialLoss).rules ≠ [] := by
  unfold checkDrawdownLimits
  cases ha : env.isActive with
  | false => intro hv; simp at hv
  | true =>
    simp only [not_true_eq_false, Bool.true_eq_false, if_false, ite_false]
    cases hb : cdlBody env potentialLoss with
    | error e => intro hv; simp at hv
    | ok r =>
      intro hv
      dsimp only at hv ⊢
      exact cdlBody_invalid_nonempty env potentialLoss r hb hv

theorem cthBody_invalid_nonempty (env : ValidatorEnv) (symbol : String)
    (r : ValidationResult) (h : cthBody env symbol = .ok r)
    (hv : r.valid = false) : r.rules ≠ [] := by
  simp only [cthBody, Bind.bind, Except.bind] at h
  cases hpr : env.activeProfileRes with
  | error e => rw [hpr] at h; cases h
  | ok profile =>
    rw [hpr] at h
    cases profile with
    | none =>
      injection h with h'
      rw [← h'] at hv
      cases hv
    | some p =>
      dsimp only at h
      repeat' split at h
      all_goals injection h with h'
      all_goals rw [← h'] at hv ⊢
      all_goals simp at hv ⊢

theorem checkTradingHours_invalid_nonempty (env : ValidatorEnv) (symbol : String) :
    (checkTradingHours env symbol).valid = false →
    (checkTradingHours env symbol).rules ≠ [] := by
  unfold checkTradingHours
  cases ha : env.isActive with
  | false => intro hv; simp at hv
  | true =>
    simp only [not_true_eq_false, Bool.true_eq_false, if_false, ite_false]
    cases hb : cthBody env symbol with
    | error e => intro hv; simp at hv
    | ok r =>
      intro hv
      dsimp only at hv ⊢
      exact cthBody_invalid_nonempty env symbol r hb hv

theorem evaluateTradeRequest_invalid_nonempty (evals : List (String × Evaluator))
    (request : Order) (profileArg engineProfile : Option FXIFYProfile) :
    (evaluateTradeRequest evals request profileArg engineProfile).valid = false →
    (evaluateTradeRequest evals request profileArg engineProfile).rules ≠ [] := by
  unfold evaluateTradeRequest
  cases hpo : profileArg.orElse (fun _ => engineProfile) with
  | none => intro hv; simp at hv
  | some p =>
    cases hre : runEvaluators evals request p with
    | error e =>
      intro hv
      dsimp only at hv ⊢
      rw [hre]
      simp
    | ok vsws =>
      obtain ⟨vs, ws⟩ := vsws
      intro hv
      dsimp only at hv ⊢
      rw [hre] at hv ⊢
      dsimp only at hv ⊢
      intro hnil
      rw [List.append_eq_nil] at hnil
      rw [hnil.1] at hv
      simp at hv

theorem validateTradeAgainstRules_invalid_nonempty (env : ValidatorEnv) (tradeRequest : Order) :
    (validateTradeAgainstRules env tradeRequest).valid = false →
    (validateTradeAgainstRules env tradeRequest).rules ≠ [] := by
  unfold validateTradeAgainstRules
  cases hpr : env.activeProfileRes with
  | error e => intro hv; simp at hv
  | ok profile =>
    cases profile with
    | none => intro hv; simp at hv
    | some p =>
      cases ha : env.isActive with
      | false => intro hv; simp at hv
      | true =>
        dsimp only
        simp only [if_true, ite_true, eq_self_iff_true]
        exact evaluateTradeRequest_invalid_nonempty env.evaluators tradeRequest (some p) (some p)

theorem voBody_invalid_nonempty (env : ValidatorEnv) (order : Order) (r : ValidationResult)
    (h : voBody env order = .ok r) : r.valid = false → r.rules ≠ [] := by
  simp only [voBody, Bind.bind, Except.bind] at h
  cases hpr : env.activeProfileRes with
  | error e => rw [hpr] at h; cases h
  | ok profile =>
    rw [hpr] at h
    cases profile with
    | none =>
      injection h with h'
      rw [← h']
      intro hv
      cases hv
    | some p =>
      dsimp only at h
      repeat' split at h
      all_goals injection h with h'
      all_goals rw [← h']
      all_goals first
        | exact checkDrawdownLimits_invalid_nonempty env (computePotentialLoss env order)
        | exact checkTradingHours_invalid_nonempty env order.symbol
        | exact validateTradeAgainstRules_invalid_nonempty env
            { order with potentialLoss := some (computePotentialLoss env order) }
        | (intro _; simp)

theorem validateOrder_invalid_nonempty (env : ValidatorEnv) (order : Order) :
    (validateOrder env order).valid = false → (validateOrder env order).rules ≠ [] := by
  unfold validateOrder
  cases ha : env.isActive with
  | false => intro hv; simp at hv
  | true =>
    simp only [not_true_eq_false, Bool.true_eq_false, if_false, ite_false]
    cases hb : voBody env order with
    | error e => intro _; simp
    | ok r =>
      intro hv
      dsimp only at hv ⊢
      exact voBody_invalid_nonempty env order r hb hv

theorem validateAgainstFXIFYRules_invalid_nonempty (env : ValidatorEnv) (order : Order)
    (ha : env.isActive = true) :
    (validateAgainstFXIFYRules env order).valid = false →
    (validateAgainstFXIFYRules env order).rules ≠ [] := by
  unfold validateAgainstFXIFYRules
  rw [ha]
  simp only [not_true_eq_false, Bool.true_eq_false, if_false, ite_false]
  exact validateOrder_invalid_nonempty env order

/-! ### C1 -/

/-- C1 counterexample: in an active environment whose drawdown-status query
throws (`drawdownStatusRes = .error`), `checkDrawdownLimits` swallows the
exception and returns `{valid: true}` with no violation at all, and
`validateOrder` on a plain order then proceeds and approves the trade — the
claimed fail-closed behaviour (`valid=false` with an `error`-severity
violation) does not hold for these two entry points. -/
theorem validation_exception_fail_open_counterexample :
    venvThrowingStatus.isActive = true ∧
    venvThrowingStatus.drawdownStatusRes = .error "boom" ∧
    checkDrawdownLimits venvThrowingStatus 100 = { valid := true, rules := [] } ∧
    validateOrder venvThrowingStatus orderA = { valid := true, rules := [] } := by
  refine ⟨rfl, rfl, rfl, ?_⟩
  with_unfolding_all decide

/-- C1 (amended): the fail-closed guarantee holds for exceptions reaching
`validateOrder`'s own catch (here: a throwing `getActiveProfile()` call) and
for evaluator exceptions inside `evaluateTradeRequest` (any evaluator
registry); but `checkDrawdownLimits` catches its own internal exceptions and
fails open, returning `{valid: true}` and letting validation proceed. -/
theorem unexpected_exception_handling :
    (∀ (evals : List (String × Evaluator)) (request : Order) (p : FXIFYProfile)
       (engineProfile : Option FXIFYProfile) (msg : String),
       runEvaluators evals request p = .error msg →
       failClosed (evaluateTradeRequest evals request (some p) engineProfile)) ∧
    (∀ (env : ValidatorEnv) (order : Order) (msg : String),
       env.isActive = true → env.activeProfileRes = .error msg →
       failClosed (validateOrder env order)) ∧
    (∀ (env : ValidatorEnv) (potentialLoss : ℚ) (msg : String),
       env.isActive = true → cdlBody env potentialLoss = .error msg →
       checkDrawdownLimits env potentialLoss = { valid := true, rules := [] }) := by
  refine ⟨?_, ?_, ?_⟩
  · intro evals request p engineProfile msg herr
    unfold evaluateTradeRequest
    dsimp only [Option.orElse]
    rw [herr]
    exact ⟨rfl, _, List.mem_cons_self _ _, rfl⟩
  · intro env order msg ha herr
    unfold validateOrder
    rw [ha]
    simp only [not_true_eq_false, Bool.true_eq_false, if_false, ite_false]
    have hb : voBody env order = .error msg := by
      simp only [voBody, Bind.bind, Except.bind, herr]
    rw [hb]
    exact ⟨rfl, _, List.mem_cons_self _ _, rfl⟩
  · intro env potentialLoss msg ha herr
    unfold checkDrawdownLimits
    rw [ha]
    simp only [not_true_eq_false, Bool.true_eq_false, if_false, ite_false]
    rw [herr]

/-- C1 witness: the three amended branches instantiated concretely — a
throwing evaluator is fail-closed in `evaluateTradeRequest`, a throwing
profile lookup is fail-closed in `validateOrder`, and a throwing drawdown
status query is fail-open in `checkDrawdownLimits`. -/
theorem unexpected_exception_handling_witness :
    failClosed (evaluateTradeRequest evalsBoom orderA (some profileStd) none) ∧
    failClosed (validateOrder venvProfileThrows orderA) ∧
    checkDrawdownLimits venvThrowingStatus 100 = { valid := true, rules := [] } :=
  ⟨unexpected_exception_handling.1 evalsBoom orderA profileStd none "boom" rfl,
   unexpected_exception_handling.2.1 venvProfileThrows orderA "boom" rfl rfl,
   unexpected_exception_handling.2.2 venvThrowingStatus 100 "boom" rfl rfl⟩

/-! ### C4 -/

/-- C4: with FXIFY mode active, when validation of an order fails the
risk-gated `placeMarketOrder` emits the `fxify:rule_violation` event and
returns `{success: false, violations}` as an ordinary value — it does not
throw — and neither the underlying broker's order placement nor its account
refresh is invoked. -/
theorem placeMarketOrder_violation_no_throw (benv : BrokerEnv) (venv : ValidatorEnv)
    (orderParams : Order) (hact : venv.isActive = true)
    (hinvalid : (validateAgainstFXIFYRules venv orderParams).valid = false) :
    (∃ out : OrderOutcome,
       (placeMarketOrder benv venv orderParams).1 = .ok out ∧
       out.success = false ∧
       out.violations = some (validateAgainstFXIFYRules venv orderParams).rules) ∧
    (placeMarketOrder benv venv orderParams).2.emittedViolations =
      [(validateAgainstFXIFYRules venv orderParams).rules] ∧
    (placeMarketOrder benv venv orderParams).2.brokerOrders = [] ∧
    (placeMarketOrder benv venv orderParams).2.drawdownUpdates = [] := by
  have hne := validateAgainstFXIFYRules_invalid_nonempty venv orderParams hact hinvalid
  unfold placeMarketOrder
  rw [hact]
  simp only [not_true_eq_false, Bool.true_eq_false, if_false, ite_false]
  rw [hinvalid]
  simp only [Bool.false_eq_true, not_false_eq_true, if_true, ite_true]
  cases hr : (validateAgainstFXIFYRules venv orderParams).rules with
  | nil => exact absurd hr hne
  | cons v rest =>
    exact ⟨⟨_, rfl, rfl, rfl⟩, rfl, rfl, rfl⟩

/-- C4 witness: a weekend order under an active profile fails validation with
a `trading_hours` violation; the adapter returns it as data, emits the event,
and never reaches the broker. -/
theorem placeMarketOrder_violation_no_throw_witness :
    venvNewsWeekend.isActive = true ∧
    (validateAgainstFXIFYRules venvNewsWeekend orderA).valid = false ∧
    ((∃ out : OrderOutcome,
       (placeMarketOrder benvEcho venvNewsWeekend orderA).1 = .ok out ∧
       out.success = false ∧
       out.violations = some (validateAgainstFXIFYRules venvNewsWeekend orderA).rules) ∧
     (placeMarketOrder benvEcho venvNewsWeekend orderA).2.emittedViolations =
       [(validateAgainstFXIFYRules venvNewsWeekend orderA).rules] ∧
     (placeMarketOrder benvEcho venvNewsWeekend orderA).2.brokerOrders = [] ∧
     (placeMarketOrder benvEcho venvNewsWeekend orderA).2.drawdownUpdates = []) :=
  ⟨rfl, by with_unfolding_all decide,
   placeMarketOrder_violation_no_throw benvEcho venvNewsWeekend orderA rfl
     (by with_unfolding_all decide)⟩

/-! ### C3 -/

theorem cneBody_safe (env : ValidatorEnv) (symbol : String) (r : NewsCheck)
    (h : cneBody env symbol = .ok r) : r.safeToTrade = true := by
  simp only [cneBody, Bind.bind, Except.bind] at h
  cases hpr : env.activeProfileRes with
  | error e => rw [hpr] at h; cases h
  | ok profile =>
    rw [hpr] at h
    cases profile with
    | none =>
      injection h with h'
      rw [← h']
    | some p =>
      dsimp only at h
      repeat' split at h
      all_goals injection h with h'
      all_goals rw [← h']

/-- `checkNewsEvents` reports `safeToTrade: true` on every path — the source's
calendar query is a placeholder ("For now, return safe to trade"). -/
theorem checkNewsEvents_safe (env : ValidatorEnv) (symbol : String) :
    (checkNewsEvents env symbol).safeToTrade = true := by
  unfold checkNewsEvents
  split
  · rfl
  · cases hc : cneBody env symbol with
    | error e => rfl
    | ok r =>
      dsimp only
      exact cneBody_safe env symbol r hc

/-- C3 counterexample: an order placed on a Saturday under an active profile
with `allowNewsTrading = false`, while the calendar reports an active
high-impact event for its symbol, is rejected by `validateOrder` with only a
`trading_hours` violation — no `news_trading` violation is produced, because
the trading-hours check short-circuits before the rules engine runs. -/
theorem news_trading_claim_counterexample :
    venvNewsWeekend.isActive = true ∧
    venvNewsWeekend.activeProfileRes = .ok (some profileStd) ∧
    profileStd.allowNewsTrading = false ∧
    venvNewsWeekend.engine.calendar = some calAll ∧
    calAll orderA.symbol = true ∧
    validateOrder venvNewsWeekend orderA =
      { valid := false
        rules := [{ rule := "trading_hours", severity := "error"
                    message := some "Trading is not allowed during weekends" }] } ∧
    (∀ v ∈ (validateOrder venvNewsWeekend orderA).rules, v.rule ≠ "news_trading") := by
  refine ⟨rfl, rfl, rfl, rfl, rfl, ?_, ?_⟩
  · with_unfolding_all decide
  · with_unfolding_all decide

/-- C3 (amended): under an active profile with `allowNewsTrading = false`, a
configured calendar reporting an active high-impact event for the order's
(nonempty) symbol, the default evaluator registry, a passing drawdown
pre-check and a weekday clock, `validateOrder` returns `valid = false` with a
`news_trading` violation of `error` severity (contributed by the rules
engine's `news_trading` evaluator; the `checkNewsEvents` step itself is a
placeholder that never blocks). -/
theorem news_event_rejection (venv : ValidatorEnv) (order : Order) (p : FXIFYProfile)
    (cal : String → Bool)
    (hact : venv.isActive = true)
    (hprof : venv.activeProfileRes = .ok (some p))
    (hnews : p.allowNewsTrading = false)
    (hcal : venv.engine.calendar = some cal)
    (hhit : cal order.symbol = true)
    (hsym : order.symbol ≠ "")
    (hevals : venv.evaluators = defaultEvaluators venv.engine)
    (hdd : (checkDrawdownLimits venv (computePotentialLoss venv order)).valid = true)
    (hday0 : venv.dayOfWeek ≠ 0) (hday6 : venv.dayOfWeek ≠ 6) :
    (validateOrder venv order).valid = false ∧
    ∃ v ∈ (validateOrder venv order).rules,
      v.rule = "news_trading" ∧ v.severity = "error" := by
  have hth : checkTradingHours venv order.symbol = { valid := true, rules := [] } := by
    unfold checkTradingHours cthBody
    rw [hact]
    simp only [not_true_eq_false, Bool.true_eq_false, if_false, ite_false]
    simp only [Bind.bind, Except.bind, hprof]
    rw [if_neg (not_or.mpr ⟨hday0, hday6⟩), ite_self]
  have hbody : voBody venv order =
      .ok (validateTradeAgainstRules venv
        { order with potentialLoss := some (computePotentialLoss venv order) }) := by
    simp only [voBody, Bind.bind, Except.bind, hprof]
    rw [hdd, hth]
    simp only [not_true_eq_false, Bool.true_eq_false, if_false, ite_false,
      checkNewsEvents_safe]
  have hvtar : validateTradeAgainstRules venv
      { order with potentialLoss := some (computePotentialLoss venv order) } =
      evaluateTradeRequest (defaultEvaluators venv.engine)
        { order with potentialLoss := some (computePotentialLoss venv order) }
        (some p) (some p) := by
    unfold validateTradeAgainstRules
    rw [hprof, hact]
    dsimp only
    rw [hevals, if_pos rfl]
  have hvo : validateOrder venv order =
      evaluateTradeRequest (defaultEvaluators venv.engine)
        { order with potentialLoss := some (computePotentialLoss venv order) }
        (some p) (some p) := by
    unfold validateOrder
    rw [hact]
    simp only [not_true_eq_false, Bool.true_eq_false, if_false, ite_false]
    rw [hbody]
    exact hvtar
  have hne : newsTradingEval venv.engine
      { order with potentialLoss := some (computePotentialLoss venv order) } p =
      .ok { valid := false, severity := some "error"
            message := some ("Trading during high-impact news events is not allowed for " ++ order.symbol) } := by
    unfold newsTradingEval
    rw [hnews, hcal]
    simp only [Bool.false_eq_true, if_false, ite_false]
    rw [if_pos (bne_iff_ne.mpr hsym), if_pos hhit]
  obtain ⟨⟨vs, ws⟩, hre⟩ := runEvaluators_ok_total (defaultEvaluators venv.engine)
    { order with potentialLoss := some (computePotentialLoss venv order) } p
    (defaultEvaluators_total venv.engine _ p)
  obtain ⟨v, hv, hrule, hsev, hmsg⟩ := runEvaluators_invalid_mem
    (defaultEvaluators venv.engine) _ p vs ws hre "news_trading"
    (newsTradingEval venv.engine) (by simp [defaultEvaluators]) _ hne rfl
  have hetr : evaluateTradeRequest (defaultEvaluators venv.engine)
      { order with potentialLoss := some (computePotentialLoss venv order) }
      (some p) (some p) =
      { valid := vs.isEmpty, rules := vs ++ ws } := by
    unfold evaluateTradeRequest
    dsimp only [Option.orElse]
    rw [hre]
  rw [hvo, hetr]
  constructor
  · dsimp only
    cases vs with
    | nil => cases hv
    | cons a tl => rfl
  · refine ⟨v, List.mem_append_left ws hv, hrule, ?_⟩
    rw [hsev]
    rfl

/-- C3 witness: on a weekday with a healthy drawdown state, the active
no-news-trading profile and an event-reporting calendar, the order is
rejected with a `news_trading` violation. -/
theorem news_event_rejection_witness :
    (validateOrder venvNewsWeekday orderA).valid = false ∧
    ∃ v ∈ (validateOrder venvNewsWeekday orderA).rules,
      v.rule = "news_trading" ∧ v.severity = "error" :=
  news_event_rejection venvNewsWeekday orderA profileStd calAll rfl rfl rfl rfl rfl
    (by decide) rfl (by with_unfolding_all decide) (by decide) (by decide)

/-! ### C10 -/

/-- C10: for an order that passed FXIFY validation under an active profile
with a (positive) `tradeSizeLimit`, `applyFXIFYConstraints` changes only the
`comment` field — the volume-clamping branch is unreachable because the
`trade_size_limit` evaluator already rejected any order with
`volume > tradeSizeLimit` — so the order delegated to the broker carries the
caller's original volume and the comment `"FXIFY: "` prefixed to the original
comment (or `"SAITRAPP"` when absent). -/
theorem validated_constraints_only_comment (venv : ValidatorEnv) (order : Order)
    (p : FXIFYProfile) (L : ℚ)
    (hact : venv.isActive = true)
    (hprof : venv.activeProfileRes = .ok (some p))
    (hlim : p.tradeSizeLimit = some L) (hL : 0 < L)
    (hevals : venv.evaluators = defaultEvaluators venv.engine)
    (hvalid : (validateOrder venv order).valid = true) :
    applyFXIFYConstraints venv order =
      .ok { order with comment := some ("FXIFY: " ++ jsOrStr order.comment "SAITRAPP") } ∧
    ∀ benv : BrokerEnv,
      (placeMarketOrder benv venv order).2.brokerOrders =
        [{ order with comment := some ("FXIFY: " ++ jsOrStr order.comment "SAITRAPP") }] := by
  by_cases hdd : (checkDrawdownLimits venv (computePotentialLoss venv order)).valid = true
  case neg =>
    have hvoEq : validateOrder venv order =
        checkDrawdownLimits venv (computePotentialLoss venv order) := by
      unfold validateOrder
      rw [hact]
      simp only [not_true_eq_false, Bool.true_eq_false, if_false, ite_false]
      have hbody : voBody venv order =
          .ok (checkDrawdownLimits venv (computePotentialLoss venv order)) := by
        simp only [voBody, Bind.bind, Except.bind, hprof]
        rw [if_pos hdd]
      rw [hbody]
    rw [hvoEq] at hvalid
    exact absurd hvalid hdd
  case pos =>
  by_cases hth : (checkTradingHours venv order.symbol).valid = true
  case neg =>
    have hvoEq : validateOrder venv order = checkTradingHours venv order.symbol := by
      unfold validateOrder
      rw [hact]
      simp only [not_true_eq_false, Bool.true_eq_false, if_false, ite_false]
      have hbody : voBody venv order = .ok (checkTradingHours venv order.symbol) := by
        simp only [voBody, Bind.bind, Except.bind, hprof]
        rw [hdd]
        simp only [not_true_eq_false, Bool.true_eq_false, if_false, ite_false]
        rw [if_pos hth]
      rw [hbody]
    rw [hvoEq] at hvalid
    exact absurd hvalid hth
  case pos =>
  have hbody : voBody venv order =
      .ok (validateTradeAgainstRules venv
        { order with potentialLoss := some (computePotentialLoss venv order) }) := by
    simp only [voBody, Bind.bind, Except.bind, hprof]
    rw [hdd, hth]
    simp only [not_true_eq_false, Bool.true_eq_false, if_false, ite_false,
      checkNewsEvents_safe]
  have hvo : validateOrder venv order =
      evaluateTradeRequest (defaultEvaluators venv.engine)
        { order with potentialLoss := some (computePotentialLoss venv order) }
        (some p) (some p) := by
    unfold validateOrder
    rw [hact]
    simp only [not_true_eq_false, Bool.true_eq_false, if_false, ite_false]
    rw [hbody]
    unfold validateTradeAgainstRules
    rw [hprof, hact]
    dsimp only
    rw [hevals, if_pos rfl]
  obtain ⟨⟨vs, ws⟩, hre⟩ := runEvaluators_ok_total (defaultEvaluators venv.engine)
    { order with potentialLoss := some (computePotentialLoss venv order) } p
    (defaultEvaluators_total venv.engine _ p)
  have hetr : evaluateTradeRequest (defaultEvaluators venv.engine)
      { order with potentialLoss := some (computePotentialLoss venv order) }
      (some p) (some p) =
      { valid := vs.isEmpty, rules := vs ++ ws } := by
    unfold evaluateTradeRequest
    dsimp only [Option.orElse]
    rw [hre]
  rw [hvo, hetr] at hvalid
  have hvs : vs = [] := by
    cases vs with
    | nil => rfl
    | cons a tl => cases hvalid
  subst hvs
  have hclamp : jsGtQ order.volume p.tradeSizeLimit = false := by
    rw [hlim]
    cases hvol : order.volume with
    | none => rfl
    | some v =>
      by_cases hv0 : v = 0
      · subst hv0
        unfold jsGtQ
        exact decide_eq_false (asymm hL)
      · by_cases hgt : v > L
        · exfalso
          have hts : tradeSizeLimitEval
              { order with potentialLoss := some (computePotentialLoss venv order) } p =
              .ok { valid := false, severity := some "error"
                    message := some "Trade size exceeds limit" } := by
            unfold tradeSizeLimitEval
            rw [if_neg, if_pos]
            · show jsGtQ order.volume p.tradeSizeLimit = true
              rw [hlim, hvol]
              unfold jsGtQ
              exact decide_eq_true hgt
            · rw [not_or, not_not, not_not]
              constructor
              · show truthyQ p.tradeSizeLimit = true
                rw [hlim]
                unfold truthyQ
                simp [ne_of_gt hL]
              · show truthyQ order.volume = true
                rw [hvol]
                unfold truthyQ
                simp [hv0]
          obtain ⟨v', hv', _⟩ := runEvaluators_invalid_mem
            (defaultEvaluators venv.engine) _ p [] ws hre "trade_size_limit"
            tradeSizeLimitEval (by simp [defaultEvaluators]) _ hts rfl
          cases hv'
        · unfold jsGtQ
          exact decide_eq_false hgt
  have happly : applyFXIFYConstraints venv order =
      .ok { order with comment := some ("FXIFY: " ++ jsOrStr order.comment "SAITRAPP") } := by
    unfold applyFXIFYConstraints
    rw [hact]
    simp only [not_true_eq_false, Bool.true_eq_false, if_false, ite_false,
      Bind.bind, Except.bind, hprof]
    rw [if_neg]
    intro hcontra
    rw [hclamp] at hcontra
    cases hcontra.2
  refine ⟨happly, ?_⟩
  intro benv
  unfold placeMarketOrder
  rw [hact]
  simp only [not_true_eq_false, Bool.true_eq_false, if_false, ite_false]
  have hvafr : validateAgainstFXIFYRules venv order = validateOrder venv order := by
    unfold validateAgainstFXIFYRules
    rw [hact]
    simp only [not_true_eq_false, Bool.true_eq_false, if_false, ite_false]
  rw [hvafr, hvo, hetr]
  dsimp only
  simp only [List.isEmpty_nil, not_true_eq_false, Bool.true_eq_false, if_false, ite_false]
  rw [happly]
  dsimp only
  cases benv.superPlaceMarketOrder
      { order with comment := some ("FXIFY: " ++ jsOrStr order.comment "SAITRAPP") } with
  | error e => rfl
  | ok orderResult =>
    dsimp only
    by_cases hs : orderResult.success = true
    · rw [if_pos hs]
      cases benv.superGetAccountInfo <;> rfl
    · rw [if_neg hs]

/-- C10 witness: a 1.0-lot order under the sized profile passes validation
and reaches the broker with only its comment changed. -/
theorem validated_constraints_only_comment_witness :
    (validateOrder venvSized orderA).valid = true ∧
    applyFXIFYConstraints venvSized orderA =
      .ok { orderA with comment := some ("FXIFY: " ++ jsOrStr orderA.comment "SAITRAPP") } ∧
    (placeMarketOrder benvEcho venvSized orderA).2.brokerOrders =
      [{ orderA with comment := some ("FXIFY: " ++ jsOrStr orderA.comment "SAITRAPP") }] :=
  ⟨by with_unfolding_all decide,
   (validated_constraints_only_comment venvSized orderA profileSized 1 rfl rfl rfl
      (by decide) rfl (by with_unfolding_all decide)).1,
   (validated_constraints_only_comment venvSized orderA profileSized 1 rfl rfl rfl
      (by decide) rfl (by with_unfolding_all decide)).2 benvEcho⟩

end Saitrapp
